import Mathlib

/-!
Verification of the `useStore` shopping-cart state container
(`src/components/store/store.jsx`).

The store holds a snapshot `{ products, cart, totalPriceShoppingCart }` and
four actions (`addToCart`, `deleteFromCart`, `clearCart`,
`calculateTotalPriceOfCart`), each of which produces the next snapshot from
the current one.  We embed the snapshot type and the four actions as Lean
functions.

Modelling choices, all taken from the source:
* JavaScript numbers appearing here (product ids, prices, totals) are
  integers in the catalog and are only compared and added, so they are
  embedded as `Int`.
* `addToCart` appends the result of `products.find(...)`, which is
  `undefined` when no product matches; a cart entry is therefore an
  `Option Product`, with `none` standing for the absent-value
  (`undefined`/`null`) placeholder.
* `deleteFromCart` evaluates `product.id !== id` and
  `calculateTotalPriceOfCart` evaluates `product.price` on every cart
  entry; on an absent entry this dereference throws a `TypeError` in
  JavaScript, so these two actions are embedded in `Except String`, the
  error carrying the would-be TypeError message.  `addToCart` and
  `clearCart` dereference nothing that can be absent, so they are plain
  functions.
-/

set_option autoImplicit false

namespace CartStore

/-- A catalog product: `{ id, name, price }` as in the `products` array of
the store. -/
structure Product where
  id : Int
  name : String
  price : Int
  deriving DecidableEq, Repr

/-- One snapshot of the store state: the data fields of the object passed to
`create(persist(...))`.  A cart entry is `Option Product`; `none` is the
absent (`undefined`) entry that `addToCart` appends on a lookup miss. -/
structure CartState where
  products : List Product
  cart : List (Option Product)
  totalPriceShoppingCart : Int
  deriving DecidableEq, Repr

/-- The six-product catalog written inline in the store source. -/
def defaultProducts : List Product :=
  [ { id := 1, name := "product 1", price := 50 },
    { id := 2, name := "product 2", price := 30 },
    { id := 3, name := "product 3", price := 40 },
    { id := 4, name := "product 4", price := 78 },
    { id := 5, name := "product 5", price := 90 },
    { id := 6, name := "product 6", price := 60 } ]

/-- The snapshot the store starts from: the inline catalog, an empty cart
and a zero total. -/
def storeInitialState : CartState :=
  { products := defaultProducts, cart := [], totalPriceShoppingCart := 0 }

/-- Modelled from the spec: `productsInitialState` is imported from
`src/constants/initialState`, a file that is not among the sources; per the
spec, `clearCart()` "replaces the entire state with the original default
snapshot (full catalog restored, cart emptied, total reset to 0)", so
`productsInitialState` is the default snapshot. -/
def productsInitialState : CartState := storeInitialState

/-- `addToCart(id)`: look up the first product in `products` whose id equals
the argument (`undefined`, i.e. `none`, on a miss) and append it to `cart`;
the other fields are spread unchanged. -/
def addToCart (state : CartState) (id : Int) : CartState :=
  let newProduct := state.products.find? (fun product => product.id == id)
  { state with cart := state.cart ++ [newProduct] }

/-- The predicate `(product) => product.id !== id` applied to a cart entry:
on an absent entry the dereference `product.id` throws a TypeError. -/
def entryIdDiffers (id : Int) (entry : Option Product) : Except String Bool :=
  match entry with
  | some product => Except.ok (product.id != id)
  | none => Except.error "TypeError: cannot read property id of undefined"

/-- `Array.prototype.filter` with a predicate that can throw: entries are
tested left to right and the first throw propagates. -/
def filterE {α : Type} (p : α → Except String Bool) : List α → Except String (List α)
  | [] => Except.ok []
  | x :: xs => do
      let keep ← p x
      let rest ← filterE p xs
      pure (if keep then x :: rest else rest)

/-- `deleteFromCart(id)`: keep exactly the cart entries whose id differs
from the argument; the other fields are spread unchanged.  Throws (returns
`Except.error`) iff the cart contains an absent entry. -/
def deleteFromCart (state : CartState) (id : Int) : Except String CartState :=
  (filterE (entryIdDiffers id) state.cart).map
    (fun newCart => { state with cart := newCart })

/-- `clearCart()`: `set(() => productsInitialState)` — the next snapshot is
the default one, whatever the current snapshot is. -/
def clearCart (_state : CartState) : CartState := productsInitialState

/-- One step of `cart.reduce((previousValue, product) => previousValue +
product.price, 0)`: on an absent entry the dereference `product.price`
throws a TypeError. -/
def priceStep (previousValue : Int) (entry : Option Product) : Except String Int :=
  match entry with
  | some product => Except.ok (previousValue + product.price)
  | none => Except.error "TypeError: cannot read property price of undefined"

/-- `calculateTotalPriceOfCart()`: fold the cart from the left starting at
`0`, adding each entry's price, and store the result in
`totalPriceShoppingCart`; the other fields are spread unchanged.  Throws
iff the cart contains an absent entry. -/
def calculateTotalPriceOfCart (state : CartState) : Except String CartState :=
  (state.cart.foldlM priceStep 0).map
    (fun totalPrice => { state with totalPriceShoppingCart := totalPrice })

/-- The snapshots the store can be in: the initial snapshot, and everything
the four actions produce from a reachable snapshot.  (Hydration from the
persisted blob adds no further snapshots: by `persist_roundtrip` below,
restoring a persisted snapshot yields that same snapshot.) -/
inductive Reachable : CartState → Prop
  | init : Reachable storeInitialState
  | add (s : CartState) (id : Int) : Reachable s → Reachable (addToCart s id)
  | del (s : CartState) (id : Int) (s' : CartState) :
      Reachable s → deleteFromCart s id = Except.ok s' → Reachable s'
  | clear (s : CartState) : Reachable s → Reachable (clearCart s)
  | recompute (s : CartState) (s' : CartState) :
      Reachable s → calculateTotalPriceOfCart s = Except.ok s' → Reachable s'

/-! ## The persistence blob

`persist(..., { name: "carrito-compras", storage: createJSONStorage(() =>
localStorage) })` serializes the snapshot's data fields to JSON after every
action and reads them back at initialization.  We model the blob as a JSON
value tree (`JSON.stringify`/`JSON.parse` are each other's inverses on
trees; `undefined` array elements stringify as `null`). -/

/-- A JSON value, as exchanged with the storage slot. -/
inductive Json where
  | null : Json
  | num (n : Int) : Json
  | str (s : String) : Json
  | arr (elements : List Json) : Json
  | obj (fields : List (String × Json)) : Json

/-- Object field access during parsing. -/
def Json.getField (j : Json) (key : String) : Option Json :=
  match j with
  | Json.obj fields => fields.lookup key
  | _ => none

/-- Read a JSON value as a number. -/
def Json.asNum : Json → Option Int
  | Json.num n => some n
  | _ => none

/-- Read a JSON value as a string. -/
def Json.asStr : Json → Option String
  | Json.str s => some s
  | _ => none

/-- Read a JSON value as an array. -/
def Json.asArr : Json → Option (List Json)
  | Json.arr elements => some elements
  | _ => none

/-- Serialization of a product. -/
def Product.toJson (p : Product) : Json :=
  Json.obj [("id", Json.num p.id), ("name", Json.str p.name),
            ("price", Json.num p.price)]

/-- Serialization of a cart entry: `JSON.stringify` writes an absent array
element as `null`. -/
def entryToJson : Option Product → Json
  | some p => p.toJson
  | none => Json.null

/-- Serialization of a snapshot's data fields (the action closures are
dropped by `JSON.stringify`). -/
def CartState.toJson (s : CartState) : Json :=
  Json.obj [("products", Json.arr (s.products.map Product.toJson)),
            ("cart", Json.arr (s.cart.map entryToJson)),
            ("totalPriceShoppingCart", Json.num s.totalPriceShoppingCart)]

/-- Parse a product back from the blob. -/
def Product.fromJson (j : Json) : Option Product := do
  let idJ ← j.getField "id"
  let i ← idJ.asNum
  let nameJ ← j.getField "name"
  let n ← nameJ.asStr
  let priceJ ← j.getField "price"
  let pr ← priceJ.asNum
  pure { id := i, name := n, price := pr }

/-- Parse a cart entry back from the blob: `null` restores the absent
placeholder. -/
def entryFromJson (j : Json) : Option (Option Product) :=
  match j with
  | Json.null => some none
  | _ => (Product.fromJson j).map some

/-- Parse each element of a JSON array. -/
def parseList {α : Type} (g : Json → Option α) : List Json → Option (List α)
  | [] => some []
  | j :: js => do
      let a ← g j
      let rest ← parseList g js
      pure (a :: rest)

/-- Parse a snapshot back from the blob, as at store reload. -/
def CartState.fromJson (j : Json) : Option CartState := do
  let productsJ ← j.getField "products"
  let productsArr ← productsJ.asArr
  let ps ← parseList Product.fromJson productsArr
  let cartJ ← j.getField "cart"
  let cartArr ← cartJ.asArr
  let c ← parseList entryFromJson cartArr
  let totalJ ← j.getField "totalPriceShoppingCart"
  let total ← totalJ.asNum
  pure { products := ps, cart := c, totalPriceShoppingCart := total }

/-- A concrete snapshot whose cart holds the 50-priced catalog product,
used to instantiate universally quantified theorems below. -/
def oneItemState : CartState :=
  { products := defaultProducts,
    cart := [some { id := 1, name := "product 1", price := 50 }],
    totalPriceShoppingCart := 0 }

/-- A concrete snapshot whose cart holds the 50- and 30-priced catalog
products, used to instantiate universally quantified theorems below. -/
def twoItemState : CartState :=
  { products := defaultProducts,
    cart := [some { id := 1, name := "product 1", price := 50 },
             some { id := 2, name := "product 2", price := 30 }],
    totalPriceShoppingCart := 0 }

/-! ## Helper lemmas -/

theorem find?_id_eq_some {l : List Product} {id : Int} (h : ∃ p ∈ l, p.id = id) :
    ∃ q, l.find? (fun product => product.id == id) = some q ∧ q.id = id := by
  obtain ⟨p, hp, hpid⟩ := h
  have hsome : (l.find? (fun product => product.id == id)).isSome :=
    List.find?_isSome.mpr ⟨p, hp, by simpa using hpid⟩
  obtain ⟨q, hq⟩ := Option.isSome_iff_exists.mp hsome
  exact ⟨q, hq, by simpa using List.find?_some hq⟩

theorem find?_id_eq_none {l : List Product} {id : Int} (h : ∀ p ∈ l, p.id ≠ id) :
    l.find? (fun product => product.id == id) = none :=
  List.find?_eq_none.mpr (fun p hp => by simpa using h p hp)

theorem filterE_map_some (id : Int) (l : List Product) :
    filterE (entryIdDiffers id) (l.map some)
      = Except.ok ((l.filter (fun product => product.id != id)).map some) := by
  induction l with
  | nil => rfl
  | cons p l ih =>
      simp only [List.map_cons, filterE, entryIdDiffers, bind, Except.bind, ih,
        pure, Except.pure, List.filter_cons]
      cases hb : (p.id != id) <;> simp [hb]

theorem foldlM_priceStep (l : List Product) (a : Int) :
    (l.map some).foldlM priceStep a
      = Except.ok (a + (l.map Product.price).sum) := by
  induction l generalizing a with
  | nil => simp [List.foldlM, pure, Except.pure]
  | cons p l ih =>
      simp only [List.map_cons, List.foldlM_cons, priceStep, bind, Except.bind, ih,
        List.sum_cons]
      rw [add_assoc]

theorem cart_all_some {c : List (Option Product)} (h : ∀ e ∈ c, e.isSome) :
    ∃ l : List Product, c = l.map some := by
  induction c with
  | nil => exact ⟨[], rfl⟩
  | cons e c ih =>
      obtain ⟨l, hl⟩ := ih (fun x hx => h x (List.mem_cons_of_mem e hx))
      obtain ⟨p, hp⟩ := Option.isSome_iff_exists.mp (h e (List.mem_cons_self e c))
      exact ⟨p :: l, by rw [hp, hl, List.map_cons]⟩

theorem Product.fromJson_toJson (p : Product) :
    Product.fromJson (Product.toJson p) = some p := rfl

theorem entryFromJson_entryToJson (e : Option Product) :
    entryFromJson (entryToJson e) = some e := by
  cases e with
  | none => rfl
  | some p =>
      show (Product.fromJson (Product.toJson p)).map some = some (some p)
      rw [Product.fromJson_toJson]
      rfl

theorem parseList_map {α : Type} (f : α → Json) (g : Json → Option α)
    (h : ∀ a, g (f a) = some a) (l : List α) :
    parseList g (l.map f) = some l := by
  induction l with
  | nil => rfl
  | cons a l ih => simp [parseList, h, ih]

/-! ## The claims -/

/-- C1: for every id equal to the id of some product in `products`,
`addToCart id` produces a state whose cart is the old cart with exactly one
entry appended at the end — a product whose id equals the argument — so the
cart grows by exactly one and all prior entries are kept in order. -/
theorem addToCart_matching_appends (s : CartState) (id : Int)
    (h : ∃ p ∈ s.products, p.id = id) :
    ∃ q : Product, q.id = id ∧
      (addToCart s id).cart = s.cart ++ [some q] ∧
      (addToCart s id).cart.length = s.cart.length + 1 := by
  obtain ⟨q, hq, hqid⟩ := find?_id_eq_some h
  exact ⟨q, hqid, by simp [addToCart, hq], by simp [addToCart]⟩

theorem addToCart_matching_appends_witness :
    ∃ q : Product, q.id = 1 ∧
      (addToCart storeInitialState 1).cart = storeInitialState.cart ++ [some q] ∧
      (addToCart storeInitialState 1).cart.length = storeInitialState.cart.length + 1 :=
  addToCart_matching_appends storeInitialState 1
    ⟨{ id := 1, name := "product 1", price := 50 }, by decide, rfl⟩

/-- C2: on a state whose cart contains only products, `deleteFromCart id`
succeeds and keeps exactly the prior entries whose id differs from the
argument, in their original order; the kept and the removed entries
together account for the whole prior cart length. -/
theorem deleteFromCart_removes_matching (s : CartState) (l : List Product) (id : Int)
    (hs : s.cart = l.map some) :
    deleteFromCart s id
      = Except.ok
          { s with cart := (l.filter (fun product => product.id != id)).map some } ∧
    (l.filter (fun product => product.id != id)).length
        + (l.filter (fun product => product.id == id)).length
      = s.cart.length := by
  constructor
  · simp [deleteFromCart, hs, filterE_map_some, Except.map]
  · have hsplit := List.length_eq_length_filter_add (l := l)
      (fun product => product.id != id)
    have hcong : l.filter (fun x => !(x.id != id))
        = l.filter (fun product => product.id == id) :=
      List.filter_congr (fun p _ => by simp [bne])
    rw [hs, List.length_map, hsplit, hcong]

theorem deleteFromCart_removes_matching_witness :
    deleteFromCart oneItemState 1 = Except.ok { oneItemState with cart := [] } ∧
    (0 : Nat) + 1 = oneItemState.cart.length := by
  have h := deleteFromCart_removes_matching oneItemState
    [{ id := 1, name := "product 1", price := 50 }] 1 rfl
  exact ⟨by simpa using h.1, by simpa using h.2⟩

/-- C3: on a state whose cart contains only products,
`calculateTotalPriceOfCart` succeeds and sets `totalPriceShoppingCart` to
the sum of the `price` fields over all cart entries. -/
theorem calculateTotalPriceOfCart_sums (s : CartState) (l : List Product)
    (hs : s.cart = l.map some) :
    calculateTotalPriceOfCart s
      = Except.ok { s with totalPriceShoppingCart := (l.map Product.price).sum } := by
  simp [calculateTotalPriceOfCart, hs, foldlM_priceStep, Except.map]

theorem calculateTotalPriceOfCart_sums_witness :
    calculateTotalPriceOfCart twoItemState
      = Except.ok { twoItemState with totalPriceShoppingCart := 80 } ∧
    calculateTotalPriceOfCart storeInitialState
      = Except.ok { storeInitialState with totalPriceShoppingCart := 0 } := by
  constructor
  · have h := calculateTotalPriceOfCart_sums twoItemState
      [{ id := 1, name := "product 1", price := 50 },
       { id := 2, name := "product 2", price := 30 }] rfl
    simpa using h
  · have h := calculateTotalPriceOfCart_sums storeInitialState [] rfl
    simpa using h

/-- C4: from any prior state, `clearCart` produces the default snapshot:
empty cart, zero total, and the six-item catalog fixed at initialization. -/
theorem clearCart_resets_to_default (s : CartState) :
    clearCart s = productsInitialState ∧
    (clearCart s).cart = [] ∧
    (clearCart s).totalPriceShoppingCart = 0 ∧
    (clearCart s).products = defaultProducts ∧
    (clearCart s).products.length = 6 :=
  ⟨rfl, rfl, rfl, rfl, rfl⟩

/-- C5 as stated is false: the snapshot reached by `addToCart 99` from the
initial state is reachable, yet `deleteFromCart` and
`calculateTotalPriceOfCart` fail on it with a TypeError, because its cart
holds the absent placeholder whose `id`/`price` dereference throws. -/
theorem operations_can_fail_on_placeholder :
    Reachable (addToCart storeInitialState 99) ∧
    deleteFromCart (addToCart storeInitialState 99) 1
      = Except.error "TypeError: cannot read property id of undefined" ∧
    calculateTotalPriceOfCart (addToCart storeInitialState 99)
      = Except.error "TypeError: cannot read property price of undefined" :=
  ⟨Reachable.add storeInitialState 99 Reachable.init, rfl, rfl⟩

/-- C5 amended: on every reachable state whose cart contains only products
(no absent placeholder), `deleteFromCart` and `calculateTotalPriceOfCart`
succeed for every id; `addToCart` and `clearCart` are total functions on
all states by construction (they dereference nothing that can be absent). -/
theorem operations_total_on_product_carts (s : CartState) (id : Int)
    (_hr : Reachable s) (hcart : ∀ e ∈ s.cart, e.isSome) :
    (∃ s1, deleteFromCart s id = Except.ok s1) ∧
    (∃ s2, calculateTotalPriceOfCart s = Except.ok s2) := by
  obtain ⟨l, hl⟩ := cart_all_some hcart
  refine ⟨⟨{ s with cart := (l.filter (fun product => product.id != id)).map some }, ?_⟩,
          ⟨{ s with totalPriceShoppingCart := (l.map Product.price).sum }, ?_⟩⟩
  · simp [deleteFromCart, hl, filterE_map_some, Except.map]
  · simp [calculateTotalPriceOfCart, hl, foldlM_priceStep, Except.map]

theorem operations_total_on_product_carts_witness :
    (∃ s1, deleteFromCart storeInitialState 1 = Except.ok s1) ∧
    (∃ s2, calculateTotalPriceOfCart storeInitialState = Except.ok s2) :=
  operations_total_on_product_carts storeInitialState 1 Reachable.init
    (by intro e he; simp [storeInitialState] at he)

/-- C6: for every id that matches no product in `products`, `addToCart id`
does not fail, appends exactly one entry — the absent placeholder, not a
product — and does not leave the cart unchanged. -/
theorem addToCart_unmatched_appends_placeholder (s : CartState) (id : Int)
    (h : ∀ p ∈ s.products, p.id ≠ id) :
    (addToCart s id).cart = s.cart ++ [none] ∧
    (addToCart s id).cart.length = s.cart.length + 1 ∧
    (addToCart s id).cart ≠ s.cart := by
  have hf := find?_id_eq_none h
  refine ⟨by simp [addToCart, hf], by simp [addToCart], ?_⟩
  intro heq
  have hlen := congrArg List.length heq
  simp [addToCart] at hlen

theorem addToCart_unmatched_appends_placeholder_witness :
    (addToCart storeInitialState 99).cart = storeInitialState.cart ++ [none] ∧
    (addToCart storeInitialState 99).cart.length = storeInitialState.cart.length + 1 ∧
    (addToCart storeInitialState 99).cart ≠ storeInitialState.cart :=
  addToCart_unmatched_appends_placeholder storeInitialState 99 (by decide)

/-- C7 as stated is false: after `addToCart 99` from the initial state the
cart is `[none]`, so no cart entry has id 1, yet `deleteFromCart 1` is not
a no-op — it raises a TypeError instead of returning the state unchanged,
because the filter predicate dereferences `id` on the absent entry. -/
theorem deleteFromCart_absent_id_can_fail :
    (addToCart storeInitialState 99).cart = [none] ∧
    deleteFromCart (addToCart storeInitialState 99) 1
      = Except.error "TypeError: cannot read property id of undefined" :=
  ⟨by decide, rfl⟩

/-- C7 amended: on every state whose cart contains only products, if no
cart entry has the given id then `deleteFromCart id` raises no error and
returns the state unchanged. -/
theorem deleteFromCart_absent_id_noop (s : CartState) (l : List Product) (id : Int)
    (hs : s.cart = l.map some) (h : ∀ p ∈ l, p.id ≠ id) :
    deleteFromCart s id = Except.ok s := by
  have hfilter : l.filter (fun product => product.id != id) = l :=
    List.filter_eq_self.mpr (fun p hp => by simpa using h p hp)
  have hcart : filterE (entryIdDiffers id) s.cart = Except.ok s.cart := by
    rw [hs, filterE_map_some, hfilter]
  show (filterE (entryIdDiffers id) s.cart).map
      (fun newCart => { s with cart := newCart }) = Except.ok s
  rw [hcart]
  rfl

theorem deleteFromCart_absent_id_noop_witness :
    deleteFromCart oneItemState 7 = Except.ok oneItemState :=
  deleteFromCart_absent_id_noop oneItemState
    [{ id := 1, name := "product 1", price := 50 }] 7 rfl (by decide)

/-- C8: `addToCart` changes only the cart (products and the stored total
are untouched — the total is not auto-recomputed on add); whenever
`deleteFromCart` succeeds it likewise leaves products and the total
untouched; and whenever `calculateTotalPriceOfCart` succeeds it changes
only the total, leaving products and cart untouched. -/
theorem actions_preserve_other_fields (s : CartState) (id : Int) :
    (addToCart s id).products = s.products ∧
    (addToCart s id).totalPriceShoppingCart = s.totalPriceShoppingCart ∧
    (∀ s1, deleteFromCart s id = Except.ok s1 →
      s1.products = s.products ∧ s1.totalPriceShoppingCart = s.totalPriceShoppingCart) ∧
    (∀ s2, calculateTotalPriceOfCart s = Except.ok s2 →
      s2.products = s.products ∧ s2.cart = s.cart) := by
  refine ⟨rfl, rfl, ?_, ?_⟩
  · intro s1 h1
    unfold deleteFromCart at h1
    cases hf : filterE (entryIdDiffers id) s.cart with
    | error e => rw [hf] at h1; exact absurd h1 (by simp [Except.map])
    | ok c =>
        rw [hf] at h1
        simp [Except.map] at h1
        rw [← h1]
        exact ⟨rfl, rfl⟩
  · intro s2 h2
    unfold calculateTotalPriceOfCart at h2
    cases hf : s.cart.foldlM priceStep 0 with
    | error e => rw [hf] at h2; exact absurd h2 (by simp [Except.map])
    | ok t =>
        rw [hf] at h2
        simp [Except.map] at h2
        rw [← h2]
        exact ⟨rfl, rfl⟩

theorem actions_preserve_other_fields_witness :
    (addToCart storeInitialState 1).products = storeInitialState.products ∧
    (addToCart storeInitialState 1).totalPriceShoppingCart
      = storeInitialState.totalPriceShoppingCart ∧
    (storeInitialState.products = storeInitialState.products ∧
      storeInitialState.totalPriceShoppingCart = storeInitialState.totalPriceShoppingCart) ∧
    (storeInitialState.products = storeInitialState.products ∧
      storeInitialState.cart = storeInitialState.cart) := by
  have h := actions_preserve_other_fields storeInitialState 1
  exact ⟨h.1, h.2.1, h.2.2.1 storeInitialState rfl, h.2.2.2 storeInitialState rfl⟩

/-- C9: serializing any snapshot to the persistence blob and restoring it,
as at store reload, yields the identical snapshot — same products, same
cart contents, same total. -/
theorem persist_roundtrip (s : CartState) :
    CartState.fromJson (CartState.toJson s) = some s := by
  simp [CartState.toJson, CartState.fromJson, Json.getField, List.lookup,
        Json.asArr, Json.asNum,
        parseList_map Product.toJson Product.fromJson Product.fromJson_toJson,
        parseList_map entryToJson entryFromJson entryFromJson_entryToJson]

/-- C10: on a state whose cart contains only products, none with the given
id, and whose catalog does contain that id, `addToCart id` followed by
`deleteFromCart id` succeeds and restores the original cart exactly. -/
theorem deleteFromCart_undoes_addToCart (s : CartState) (l : List Product) (id : Int)
    (hs : s.cart = l.map some) (habsent : ∀ p ∈ l, p.id ≠ id)
    (hmatch : ∃ p ∈ s.products, p.id = id) :
    ∃ s2, deleteFromCart (addToCart s id) id = Except.ok s2 ∧ s2.cart = s.cart := by
  obtain ⟨q, hq, hqid⟩ := find?_id_eq_some hmatch
  have hfilter : l.filter (fun product => product.id != id) = l :=
    List.filter_eq_self.mpr (fun p hp => by simpa using habsent p hp)
  have hcart : (addToCart s id).cart = (l ++ [q]).map some := by
    simp [addToCart, hq, hs]
  refine ⟨{ addToCart s id with
      cart := ((l ++ [q]).filter (fun product => product.id != id)).map some }, ?_, ?_⟩
  · unfold deleteFromCart
    rw [hcart, filterE_map_some]
    rfl
  · show ((l ++ [q]).filter (fun product => product.id != id)).map some = s.cart
    rw [List.filter_append, hfilter]
    simp [List.filter_cons, hqid, hs]

theorem deleteFromCart_undoes_addToCart_witness :
    ∃ s2, deleteFromCart (addToCart oneItemState 2) 2 = Except.ok s2 ∧
      s2.cart = oneItemState.cart :=
  deleteFromCart_undoes_addToCart oneItemState
    [{ id := 1, name := "product 1", price := 50 }] 2 rfl (by decide) (by decide)

end CartStore
